import Mathlib

/-!
Verification development for a fixed-formation shoot-em-up (single C++ source
file, `src/main.cpp`).  The simulation core of `main_loop` is shallowly
embedded below: `size_t` values are modelled as `Nat`, `int` values as `Int`,
and every C++ arithmetic step that can wrap around the 64-bit unsigned range
is routed through `w64`, which reduces an `Int` modulo `2^64` and returns the
`Nat` representative.  The bullet pool (a 128-slot array plus a live-count
cursor) is modelled as the list of live bullets; writing at the cursor and
incrementing the count is list append, and swap-with-last removal is
`removeBulletAt`.  Loops with data-dependent exits carry an explicit fuel
parameter so that every definition stays executable by the kernel.
-/

set_option maxRecDepth 4096

/-- Reduction of a 64-bit unsigned (`size_t`) arithmetic result: the C++
value is the integer modulo `2^64`, represented as a `Nat`. -/
def w64 (z : Int) : Nat := (z % (18446744073709551616 : Int)).toNat

/-- Widths of the six alien animation sprites `alien_sprites[0..5]`
(8, 8, 11, 11, 12, 12); every other index is junk.  All heights are 8,
the death sprite is 13 wide and 7 tall. -/
def alienW : Nat → Nat
  | 0 => 8
  | 1 => 8
  | 2 => 11
  | 3 => 11
  | 4 => 12
  | 5 => 12
  | _ => 0

/-- `sprite_overlap_check(sp_a, x_a, y_a, sp_b, x_b, y_b)` from the source:
axis-aligned bounding-box overlap of two sprites, given as
width/height/x/y of sprite A followed by width/height/x/y of sprite B. -/
def sprite_overlap_check (wa ha xa ya wb hb xb yb : Nat) : Bool :=
  decide (xa < xb + wb) && decide (xa + wa > xb) &&
  decide (ya < yb + hb) && decide (ya + ha > yb)

/-- `xorshift32`: one step of Marsaglia's xorshift RNG on a 32-bit state,
`x ^= x<<13; x ^= x>>17; x ^= x<<5`, each assignment truncated to 32 bits. -/
def xorshift32 (x : Nat) : Nat :=
  let x1 := (x ^^^ (x <<< 13)) % 4294967296
  let x2 := (x1 ^^^ (x1 >>> 17)) % 4294967296
  (x2 ^^^ (x2 <<< 5)) % 4294967296

/-- `random(rng)`: the xorshift output divided by the maximum representable
32-bit value (`std::numeric_limits<uint32_t>::max() = 4294967295`), modelled
in exact rational arithmetic. -/
def randomVal (x : Nat) : ℚ := (xorshift32 x : ℚ) / 4294967295

structure Alien where
  x : Nat
  y : Nat
  type : Nat
  deriving DecidableEq, Repr

structure Bullet where
  x : Nat
  y : Nat
  dir : Int
  deriving DecidableEq, Repr

structure Player where
  x : Nat
  y : Nat
  lives : Nat
  deriving DecidableEq, Repr

/-- The simulation state: the `Game` struct of the source together with the
file-scope and `main`-local mutable variables that the loop reads and
writes.  `bullets` is the list of live bullets (the prefix of the 128-slot
array below the `num_bullets` cursor). -/
structure GameState where
  aliens : List Alien
  bullets : List Bullet
  player : Player
  score : Nat
  aliensKilled : Nat
  shouldChangeSpeed : Bool
  alienUpdateTimer : Nat
  alienSwarmPosition : Nat
  alienSwarmMaxPosition : Nat
  alienUpdateFrequency : Nat
  alienMoveDir : Int
  alienDeathCounter : List Nat
  animTime : List Nat
  animFrameDuration : List Nat
  bulletAnimTime : Nat
  rng : Nat
  moveDir : Int
  firePressed : Bool
  deriving DecidableEq, Repr

/-- Swap-with-last removal of the bullet in slot `i`:
`bullets[i] = bullets[num_bullets - 1]; --num_bullets;`. -/
def removeBulletAt (bs : List Bullet) (i : Nat) : List Bullet :=
  (bs.set i (bs.getD (bs.length - 1) ⟨0, 0, 0⟩)).take (bs.length - 1)

/-- Outcome of one run of the rejection-sampling loop: `ok` is a normal
exit with the chosen index and the advanced RNG state; `oob` marks the run
in which the sampled index is not below the alien count, so the C++ loop
condition reads `aliens[rai]` out of bounds — undefined behavior, modelled
as this distinguished outcome at the point of the bad read; `spin` is fuel
exhaustion (the C++ loop has no bound). -/
inductive PickResult where
  | ok (rai rng : Nat)
  | oob (rai rng : Nat)
  | spin
  deriving DecidableEq, Repr

/-- The rejection-sampling loop of the formation step:
`rai = num_aliens * random(&rng); while (aliens[rai].type == DEAD) rai = ...;`
with explicit fuel.  The sampled index is `floor(len * out / 4294967295)`,
the real-arithmetic value of the double expression
`num_aliens * random(&rng)` truncated to `size_t`.  Because the divisor is
the maximum 32-bit value itself, the quotient reaches `len` exactly when the
xorshift output is 4294967295, and then the C++ loop guard dereferences
`aliens[len]` out of bounds: that run is returned as `oob`. -/
def pickAlive (aliens : List Alien) (rng : Nat) : Nat → PickResult
  | 0 => .spin
  | fuel + 1 =>
    let r := xorshift32 rng
    let rai := aliens.length * r / 4294967295
    if h : rai < aliens.length then
      if (aliens.get ⟨rai, h⟩).type = 0 then pickAlive aliens r fuel
      else .ok rai r
    else .oob rai r

/-- The per-alien body of the vertical update pass (source lines 812-828):
dead aliens are skipped; an alien whose `y` exceeds the playfield height is
relocated to `y = 0` with `x = rng % alien_swarm_max_position` (the RNG state
is read, not advanced), forced dead, and `alien_move_dir` is decremented;
otherwise `y += alien_move_dir`.  The move direction threads through the
scan because a wrap changes it for the aliens that follow. -/
def wrapAliens (rng maxpos : Nat) : Int → List Alien → List Alien × Int
  | amd, [] => ([], amd)
  | amd, a :: rest =>
    if a.type = 0 then
      let p := wrapAliens rng maxpos amd rest
      (a :: p.1, p.2)
    else if a.y > 256 then
      let p := wrapAliens rng maxpos (amd - 1) rest
      (⟨rng % maxpos, 0, 0⟩ :: p.1, p.2)
    else
      let p := wrapAliens rng maxpos amd rest
      ({ a with y := w64 ((a.y : Int) + amd) } :: p.1, p.2)

/-- Source lines 812-828: `if (alien_update_frequency-- == 0)` — when the
countdown hits zero it is reset to 120 and the vertical pass runs over all
aliens; otherwise the countdown just decrements. -/
def wrapStep (s : GameState) : GameState :=
  if s.alienUpdateFrequency = 0 then
    let p := wrapAliens s.rng s.alienSwarmMaxPosition s.alienMoveDir s.aliens
    { s with alienUpdateFrequency := 120, aliens := p.1, alienMoveDir := p.2 }
  else
    { s with alienUpdateFrequency := s.alienUpdateFrequency - 1 }

/-- Width of the current animation frame of an alive alien of kind `t`:
frame index is `time / frame_duration` of animation clock `t - 1`, selecting
sprite `2*(t-1)` or `2*(t-1)+1`; any out-of-range frame reads junk width 0. -/
def alienFrameW (s : GameState) (t : Nat) : Nat :=
  let dur := s.animFrameDuration.getD (t - 1) 0
  let tm := s.animTime.getD (t - 1) 0
  [alienW (2 * (t - 1)), alienW (2 * (t - 1) + 1)].getD (tm / dur) 0

/-- The player-bullet-vs-alien overlap test for bullet slot `i` against alien
`k` (source lines 892-894): bullet sprite is 1 wide and 3 tall, the alien box
is its current animation frame (height 8). -/
def hitCond (s : GameState) (i k : Nat) : Bool :=
  let a := s.aliens.getD k ⟨0, 0, 0⟩
  let b := s.bullets.getD i ⟨0, 0, 0⟩
  sprite_overlap_check 1 3 b.x b.y (alienFrameW s a.type) 8 a.x a.y

/-- Source lines 883-908, the per-bullet alien scan: skip dead aliens; on the
first overlap award `10 * (4 - type)` points, kill the alien, recenter its x
by half the death-sprite/frame width delta, remove the bullet, bump the kill
count, raise the speed-change flag when the new count is a multiple of 15,
and break. -/
def alienScan : Nat → Nat → Nat → GameState → GameState
  | 0, _, _, s => s
  | fuel + 1, i, j, s =>
    if j < s.aliens.length then
      let a := s.aliens.getD j ⟨0, 0, 0⟩
      if a.type = 0 then alienScan fuel i (j + 1) s
      else if hitCond s i j then
        let aw := alienFrameW s a.type
        { s with
          score := w64 ((s.score : Int) + 10 * (4 - (a.type : Int))),
          aliens := s.aliens.set j
            { a with type := 0, x := w64 ((a.x : Int) - ((13 - aw) / 2 : Nat)) },
          bullets := removeBulletAt s.bullets i,
          aliensKilled := s.aliensKilled + 1,
          shouldChangeSpeed :=
            if (s.aliensKilled + 1) % 15 = 0 then true else s.shouldChangeSpeed }
      else alienScan fuel i (j + 1) s
    else s

/-- Source lines 855-880, the player-bullet-vs-alien-bullet block: the inner
loop redeclares the index, so its guard compares the index against itself and
`continue`s on every iteration; the removal logic below the guard is dead
code, transcribed as written. -/
def bulletVsBulletLoop : Nat → Nat → GameState → GameState
  | 0, _, s => s
  | fuel + 1, j, s =>
    if j < s.bullets.length then
      if j = j then bulletVsBulletLoop fuel (j + 1) s
      else
        let bj := s.bullets.getD j ⟨0, 0, 0⟩
        if sprite_overlap_check 1 3 bj.x bj.y 3 7 bj.x bj.y then
          let n := s.bullets.length
          if j = n - 1 then
            { s with bullets := ((s.bullets.set j (s.bullets.getD (n - 2) ⟨0, 0, 0⟩)).take (n - 2)) }
          else if j = n - 1 then
            { s with bullets := ((s.bullets.set j (s.bullets.getD (n - 2) ⟨0, 0, 0⟩)).take (n - 2)) }
          else
            { s with bullets :=
                (((s.bullets.set j (s.bullets.getD (n - 1) ⟨0, 0, 0⟩)).set j
                  (s.bullets.getD (n - 2) ⟨0, 0, 0⟩)).take (n - 2)) }
        else bulletVsBulletLoop fuel (j + 1) s
    else s

/-- Entry point of the bullet-vs-bullet block for one player bullet. -/
def bulletVsBulletBlock (s : GameState) : GameState :=
  bulletVsBulletLoop s.bullets.length 0 s

/-- Source lines 831-910, the bullet simulation loop over slot `i`: advance
`y` by `dir`; remove the bullet when it leaves the vertical bounds; an alien
bullet that overlaps the player costs a life, is removed, and breaks out of
the whole pass; a player bullet runs the (no-op) bullet-vs-bullet block and
then the alien scan.  Every iteration advances `i` (so a bullet swapped into
a vacated slot is skipped this tick), and the list only shrinks, so fuel
`length + 1` always suffices. -/
def bulletLoop : Nat → Nat → GameState → GameState
  | 0, _, s => s
  | fuel + 1, i, s =>
    if i < s.bullets.length then
      let b0 := s.bullets.getD i ⟨0, 0, 0⟩
      let b1 : Bullet := { b0 with y := w64 ((b0.y : Int) + b0.dir) }
      let sb := { s with bullets := s.bullets.set i b1 }
      if b1.y ≥ 256 ∨ b1.y < 3 then
        bulletLoop fuel (i + 1) { sb with bullets := removeBulletAt sb.bullets i }
      else if b1.dir < 0 then
        if sprite_overlap_check 3 7 b1.x b1.y 11 7 sb.player.x sb.player.y then
          { sb with
            player := { sb.player with lives := w64 ((sb.player.lives : Int) - 1) },
            bullets := removeBulletAt sb.bullets i }
        else bulletLoop fuel (i + 1) sb
      else
        let s2 := bulletVsBulletBlock sb
        let s3 := alienScan s2.aliens.length i 0 s2
        bulletLoop fuel (i + 1) s3
    else s

/-- The whole bullet pass of one tick. -/
def bulletStep (s : GameState) : GameState :=
  bulletLoop (s.bullets.length + 1) 0 s

/-- Source lines 913-919: when the speed-change flag is up, clear it, halve
`alien_update_frequency`, and set all three alive-animation frame durations
to the new value. -/
def rampStep (s : GameState) : GameState :=
  if s.shouldChangeSpeed then
    { s with
      shouldChangeSpeed := false,
      alienUpdateFrequency := s.alienUpdateFrequency / 2,
      animFrameDuration := List.replicate 3 (s.alienUpdateFrequency / 2) }
  else s

/-- Source lines 922-927: each dead alien with a nonzero death counter has it
decremented. -/
def countdownStep (s : GameState) : GameState :=
  { s with alienDeathCounter :=
      (s.aliens.zip s.alienDeathCounter).map fun p =>
        if p.1.type = 0 ∧ p.2 ≠ 0 then p.2 - 1 else p.2 }

/-- Source lines 929-965, the formation step, gated by
`alien_update_timer >= alien_update_frequency`: reset the timer; bounce off
the left wall (negate the direction and drop every alien 8 pixels) or off the
right bound (negate only); advance the swarm position and every alien's x by
the (possibly negated) direction; then, when the kill count is below the
alien total, pick a random alive alien by rejection sampling and spawn an
alien bullet just below it.  When the sampling fuel runs out (which the C++
original would spend looping forever) the spawn is skipped; when the sample
lands out of range the C++ behavior is undefined at the `aliens[rai]` read,
and the model cuts the tick there, keeping the advanced RNG state and
skipping the spawn. -/
def formationStep (fuel : Nat) (s : GameState) : GameState :=
  if s.alienUpdateTimer ≥ s.alienUpdateFrequency then
    let s1 := { s with alienUpdateTimer := 0 }
    let s2 :=
      if (s1.alienSwarmPosition : Int) + s1.alienMoveDir < 0 then
        { s1 with
          alienMoveDir := -1 * s1.alienMoveDir,
          aliens := s1.aliens.map fun a => { a with y := w64 ((a.y : Int) - 8) } }
      else if s1.alienSwarmPosition > w64 ((s1.alienSwarmMaxPosition : Int) - s1.alienMoveDir) then
        { s1 with alienMoveDir := -1 * s1.alienMoveDir }
      else s1
    let s3 := { s2 with
      alienSwarmPosition := w64 ((s2.alienSwarmPosition : Int) + s2.alienMoveDir),
      aliens := s2.aliens.map fun a => { a with x := w64 ((a.x : Int) + s2.alienMoveDir) } }
    if s3.aliensKilled < s3.aliens.length then
      match pickAlive s3.aliens s3.rng fuel with
      | .spin => s3
      | .oob _ rng2 => { s3 with rng := rng2 }
      | .ok rai rng2 =>
        let a := s3.aliens.getD rai ⟨0, 0, 0⟩
        let aw := alienW (2 * (a.type - 1))
        { s3 with
          rng := rng2,
          bullets := s3.bullets ++ [⟨a.x + aw / 2, w64 ((a.y : Int) - 7), -2⟩] }
    else s3
  else s

/-- Source lines 967-980: each animation clock ticks and wraps at
`num_frames * frame_duration` (2 frames each; the alien-bullet clock has the
fixed duration 5). -/
def animStep (s : GameState) : GameState :=
  { s with
    animTime := (s.animTime.zip s.animFrameDuration).map fun p =>
      if p.1 + 1 ≥ 2 * p.2 then 0 else p.1 + 1,
    bulletAnimTime := if s.bulletAnimTime + 1 ≥ 2 * 5 then 0 else s.bulletAnimTime + 1 }

/-- Source line 982: `++alien_update_timer`. -/
def timerStep (s : GameState) : GameState :=
  { s with alienUpdateTimer := s.alienUpdateTimer + 1 }

/-- Source lines 985-996, the player lateral move on a 224-wide playfield
with the 11-wide player sprite.  `player_move = 2 * move_dir`; the first
guard `player.x + width + player_move >= game.width` is evaluated in
`size_t` arithmetic (hence `w64`), the second in `int` arithmetic. -/
def playerLateral (md : Int) (x : Nat) : Nat :=
  let m := 2 * md
  if m = 0 then x
  else if w64 ((x : Int) + 11 + m) ≥ 224 then 224 - 11
  else if (x : Int) + m ≤ 0 then 0
  else w64 ((x : Int) + m)

def playerStep (s : GameState) : GameState :=
  { s with player := { s.player with x := playerLateral s.moveDir s.player.x } }

/-- The initial alien layout (source lines 545-556): the alien at index
`yi*11 + xi` has kind `(5 - yi)/2 + 1`, x `16*xi + 24 + (13 - w)/2` (the
swarm position global is 24 and the death sprite is 13 wide, `w` the width of
the kind's first frame), and y `17*yi + 128`. -/
def initAliens : List Alien :=
  (List.range 5).foldl
    (fun acc yi =>
      (List.range 11).foldl
        (fun acc2 xi =>
          let t := (5 - yi) / 2 + 1
          acc2.set (yi * 11 + xi)
            ⟨16 * xi + 24 + (13 - alienW (2 * (t - 1))) / 2, 17 * yi + 128, t⟩)
        acc)
    (List.replicate 55 ⟨0, 0, 0⟩)

/-- Applies a sequence of indexed writes (`l[i] = v`) to a list, in order:
the shape of a C++ loop that stores into an array slot on each iteration. -/
def writeAll {α : Type} : List (Nat × α) → List α → List α
  | [], l => l
  | (i, v) :: ws, l => writeAll ws (l.set i v)

/-- The write sequence of the wave-reset loop (source lines 1024-1039), in
loop order: for `xi` in 0..10 and `yi` in 0..4, slot `xi*5 + yi` receives an
alien of kind `(5 - yi)/2 + 1` with the same position formulas as the
initial spawn (`alien_swarm_position` has just been reset to 24). -/
def resetWrites : List (Nat × Alien) :=
  (List.range 11).foldl
    (fun acc xi =>
      (List.range 5).foldl
        (fun acc2 yi =>
          let t := (5 - yi) / 2 + 1
          acc2 ++ [(xi * 5 + yi,
            ⟨16 * xi + 24 + (13 - alienW (2 * (t - 1))) / 2, 17 * yi + 128, t⟩)])
        acc)
    []

/-- The alien rebuild of the wave reset: the loop's writes applied to the
existing alien storage. -/
def resetAliensFold (l : List Alien) : List Alien := writeAll resetWrites l

/-- The write sequence of the wave reset for the death counters: every slot
back to 10, in the same loop order. -/
def resetCounterWrites : List (Nat × Nat) :=
  (List.range 11).foldl
    (fun acc xi =>
      (List.range 5).foldl (fun acc2 yi => acc2 ++ [(xi * 5 + yi, 10)]) acc)
    []

/-- The death-counter rebuild of the wave reset. -/
def resetCounterFold (l : List Nat) : List Nat := writeAll resetCounterWrites l

/-- Source lines 1015-1040, else branch: the wave reset — frequency back to
120, swarm position to 24, kill count and timer to 0, move direction to 4,
every death counter to 10, and the aliens respawned. -/
def resetStep (s : GameState) : GameState :=
  { s with
    alienUpdateFrequency := 120,
    alienSwarmPosition := 24,
    aliensKilled := 0,
    alienUpdateTimer := 0,
    alienMoveDir := 4,
    aliens := resetAliensFold s.aliens,
    alienDeathCounter := resetCounterFold s.alienDeathCounter }

/-- Source lines 998-1040: while any alien count remains, re-derive the swarm
bounds from the first and last alive aliens (the source scans with unguarded
while loops; `findIdx` returning the length models running off the end);
otherwise run the wave reset. -/
def boundsOrResetStep (s : GameState) : GameState :=
  if s.aliensKilled < s.aliens.length then
    let ai := s.aliens.findIdx fun a => ¬ a.type = 0
    let a := s.aliens.getD ai ⟨0, 0, 0⟩
    let spr := alienW (2 * (a.type - 1))
    let pos := w64 ((a.x : Int) - ((13 - spr) / 2 : Nat))
    let s1 := if pos > s.alienSwarmPosition then { s with alienSwarmPosition := pos } else s
    let ai2 := s1.aliens.length - 1 - (s1.aliens.reverse.findIdx fun a => ¬ a.type = 0)
    let a2 := s1.aliens.getD ai2 ⟨0, 0, 0⟩
    let pos2 := w64 (224 - (a2.x : Int) - 13 + (pos : Int))
    if pos2 > s1.alienSwarmMaxPosition then { s1 with alienSwarmMaxPosition := pos2 } else s1
  else resetStep s

/-- Source lines 1043-1050: when fire was requested and the pool is below
capacity (128), append a player bullet at the player's position (dir `+2`);
in every case clear the fire flag. -/
def fireStep (s : GameState) : GameState :=
  let s1 :=
    if s.firePressed ∧ s.bullets.length < 128 then
      { s with bullets := s.bullets ++ [⟨s.player.x + 11 / 2, s.player.y, 2⟩] }
    else s
  { s1 with firePressed := false }

/-- One simulated tick (player alive): the source block runs, in order, the
vertical wrap pass, the bullet pass, the difficulty ramp, the death
countdowns, the timer-gated formation step, the animation clocks, the
formation timer increment, the player lateral move, the swarm-bounds
re-derivation or wave reset, and the fire spawn with flag clear.  `fuel`
bounds the rejection sampling inside the formation step. -/
def tick (fuel : Nat) (s : GameState) : GameState :=
  fireStep (boundsOrResetStep (playerStep (timerStep (animStep (formationStep fuel
    (countdownStep (rampStep (bulletStep (wrapStep s)))))))))

/-- Modelled from the spec: the per-tick sequencing claimed in §4.4, which
places the bullet pass before the vertical wrap pass; all constituent steps
are the ones transcribed from the source.  Used only to compare the claimed
order with the actual one. -/
def tickSpecOrder (fuel : Nat) (s : GameState) : GameState :=
  fireStep (boundsOrResetStep (playerStep (timerStep (animStep (formationStep fuel
    (countdownStep (rampStep (wrapStep (bulletStep s)))))))))

/-- Input capture between ticks: `glfwPollEvents` runs the key callback,
which overwrites the accumulated move direction and latches (never clears)
the fire flag. -/
def applyInputs (md : Int) (fp : Bool) (s : GameState) : GameState :=
  { s with moveDir := md, firePressed := s.firePressed || fp }

/-- One full loop iteration: when the player has no lives left the terminal
screen is drawn and the whole simulation is skipped (`continue`); either way
events are polled afterwards. -/
def frame (fuel : Nat) (md : Int) (fp : Bool) (s : GameState) : GameState :=
  applyInputs md fp (if s.player.lives = 0 then s else tick fuel s)

/-- Run the loop over a list of per-tick inputs. -/
def runFrames (fuel : Nat) : List (Int × Bool) → GameState → GameState
  | [], s => s
  | inp :: rest, s => runFrames fuel rest (frame fuel inp.1 inp.2 s)

/-- The state right after `main`'s initialisation, entering the loop:
55 aliens in formation, empty pool, player at (107, 32) with 3 lives,
swarm position 24, right bound `224 - 16*11 - 3 = 45`, frequency 120,
move direction 4, RNG seed 13. -/
def initState : GameState where
  aliens := initAliens
  bullets := []
  player := ⟨107, 32, 3⟩
  score := 0
  aliensKilled := 0
  shouldChangeSpeed := false
  alienUpdateTimer := 0
  alienSwarmPosition := 24
  alienSwarmMaxPosition := 45
  alienUpdateFrequency := 120
  alienMoveDir := 4
  alienDeathCounter := List.replicate 55 10
  animTime := [0, 0, 0]
  animFrameDuration := [10, 10, 10]
  bulletAnimTime := 0
  rng := 13
  moveDir := 0
  firePressed := false

/-- A formation-step tick with the bullet pool at capacity: the timer has
elapsed, all 55 aliens are alive, and 128 bullets are in flight. -/
def fullPoolState : GameState :=
  { initState with
    bullets := List.replicate 128 ⟨0, 100, 2⟩,
    alienUpdateTimer := 120 }

/-- A state one vertical pass away from "all aliens dead but the kill count
below the total": 54 aliens already dead with only 54 credited kills (the
55th alien was marked dead by earlier wraps, which do not credit kills), and
the last alive alien sits above the playfield about to wrap. -/
def wrapKillState : GameState :=
  { initState with
    aliens := ⟨50, 257, 1⟩ :: List.replicate 54 ⟨0, 0, 0⟩,
    aliensKilled := 54,
    alienUpdateFrequency := 0,
    rng := 7 }

/-- A state where the tick order is observable: the vertical pass is due
(`alien_update_frequency == 0`), alien 0 is alive just past the top bound
and a player bullet is about to reach it, alien 1 is alive elsewhere. -/
def orderProbeState : GameState :=
  { initState with
    aliens := ⟨50, 257, 1⟩ :: ⟨100, 150, 1⟩ :: List.replicate 53 ⟨0, 0, 0⟩,
    bullets := [⟨50, 253, 2⟩],
    player := ⟨100, 32, 3⟩,
    alienUpdateFrequency := 0,
    rng := 7 }

/-- A one-alien state whose single player bullet hits the alien this tick. -/
def singleHitState : GameState :=
  { initState with
    aliens := [⟨24, 128, 3⟩],
    bullets := [⟨24, 126, 2⟩] }

/-- Fire requested with the pool at capacity. -/
def fullPoolFireState : GameState :=
  { initState with
    bullets := List.replicate 128 ⟨5, 50, 2⟩,
    firePressed := true }

/-- A game-over state: the player is out of lives. -/
def gameOverState : GameState :=
  { initState with
    player := ⟨107, 32, 0⟩,
    bullets := [⟨12, 90, -2⟩],
    score := 340 }

/-- A wave-clear state: all 55 aliens dead and all 55 kills credited. -/
def waveClearState : GameState :=
  { initState with
    aliens := List.replicate 55 ⟨0, 0, 0⟩,
    aliensKilled := 55 }

/-- The bullet-vs-bullet inner loop continues on every iteration, so it
returns the state unchanged. -/
theorem bulletVsBulletLoop_id (fuel : Nat) : ∀ (j : Nat) (s : GameState),
    bulletVsBulletLoop fuel j s = s := by
  induction fuel with
  | zero => intro j s; rfl
  | succ f ih =>
    intro j s
    simp only [bulletVsBulletLoop]
    split
    · simpa using ih (j + 1) s
    · rfl

/-- C9: the player-bullet-vs-alien-bullet collision block is a no-op — the
inner loop's self-comparison always triggers `continue`, so running the
block is the same as skipping it: the bullet pool and every other component
of the state are untouched. -/
theorem bulletVsBulletBlock_skip_equiv : ∀ s : GameState, bulletVsBulletBlock s = s :=
  fun s => bulletVsBulletLoop_id s.bullets.length 0 s

/-- C2 counterexample: the code's own vertical pass turns the state
`wrapKillState` (one alien alive, 54 kills credited) into a state where the
formation-step gate `kills < total_aliens` still holds and yet no alien is in
a non-Dead state — so the gate does not guarantee the rejection-sampling
loop an alive alien. -/
theorem alive_gate_cex :
    (wrapStep wrapKillState).aliensKilled < (wrapStep wrapKillState).aliens.length ∧
    ∀ a ∈ (wrapStep wrapKillState).aliens, a.type = 0 := by decide

/-- C2 (amended): the rejection-sampling loop has three possible fates,
all captured: whenever it exits normally it yields an in-range index of a
non-Dead alien; when every alien is Dead it never exits normally, for any
RNG state and any bound (the original unbounded loop would spin forever);
and the loop itself can reach an out-of-bounds read — the `oob` outcome
occurs exactly at a sampled index not below the alien count, and with the
55-alien formation it is actually triggered by the RNG state whose xorshift
output is the maximum 32-bit value, where the C++ guard dereferences
`aliens[55]` (undefined behavior). -/
theorem pickAlive_spec :
    (∀ (aliens : List Alien) (rng fuel rai rng2 : Nat),
        pickAlive aliens rng fuel = PickResult.ok rai rng2 →
        rai < aliens.length ∧ (aliens.getD rai ⟨0, 0, 0⟩).type ≠ 0) ∧
    (∀ (aliens : List Alien), (∀ a ∈ aliens, a.type = 0) →
        ∀ (rng fuel rai rng2 : Nat), pickAlive aliens rng fuel ≠ PickResult.ok rai rng2) ∧
    (∀ (aliens : List Alien) (rng fuel rai rng2 : Nat),
        pickAlive aliens rng fuel = PickResult.oob rai rng2 → aliens.length ≤ rai) ∧
    pickAlive initAliens 1584200935 1 = PickResult.oob 55 4294967295 := by
  refine ⟨?_, ?_, ?_, by decide⟩
  · intro aliens rng fuel
    induction fuel generalizing rng with
    | zero => intro rai rng2 h; exact absurd h (by simp [pickAlive])
    | succ f ih =>
      intro rai rng2 h
      simp only [pickAlive] at h
      by_cases hr : aliens.length * xorshift32 rng / 4294967295 < aliens.length
      · rw [dif_pos hr] at h
        by_cases hd :
            (aliens.get ⟨aliens.length * xorshift32 rng / 4294967295, hr⟩).type = 0
        · rw [if_pos hd] at h
          exact ih (xorshift32 rng) rai rng2 h
        · rw [if_neg hd] at h
          obtain ⟨h1, h2⟩ := PickResult.ok.injEq .. ▸ h
          subst h1
          refine ⟨hr, ?_⟩
          rw [List.getD_eq_getElem _ _ hr]
          exact hd
      · rw [dif_neg hr] at h
        exact absurd h (by simp)
  · intro aliens hall rng fuel
    induction fuel generalizing rng with
    | zero => intro rai rng2; simp [pickAlive]
    | succ f ih =>
      intro rai rng2
      simp only [pickAlive]
      by_cases hr : aliens.length * xorshift32 rng / 4294967295 < aliens.length
      · rw [dif_pos hr, if_pos (show
            (aliens.get ⟨aliens.length * xorshift32 rng / 4294967295, hr⟩).type = 0 from
            hall _ (List.getElem_mem hr))]
        exact ih (xorshift32 rng) rai rng2
      · rw [dif_neg hr]
        simp
  · intro aliens rng fuel
    induction fuel generalizing rng with
    | zero => intro rai rng2 h; exact absurd h (by simp [pickAlive])
    | succ f ih =>
      intro rai rng2 h
      simp only [pickAlive] at h
      by_cases hr : aliens.length * xorshift32 rng / 4294967295 < aliens.length
      · rw [dif_pos hr] at h
        by_cases hd :
            (aliens.get ⟨aliens.length * xorshift32 rng / 4294967295, hr⟩).type = 0
        · rw [if_pos hd] at h
          exact ih (xorshift32 rng) rai rng2 h
        · rw [if_neg hd] at h
          exact absurd h (by simp)
      · rw [dif_neg hr] at h
        obtain ⟨h1, h2⟩ := PickResult.oob.injEq .. ▸ h
        subst h1
        omega

/-- Witness for C2's amended theorem: a normal exit on a single-alive-alien
pool (in range, alive), a never-normal exit on an all-dead pool, and the
out-of-bounds outcome reached on a one-alien pool at the maximal xorshift
output. -/
theorem pickAlive_spec_witness :
    (0 < ([(⟨0, 0, 1⟩ : Alien)] : List Alien).length ∧
      (([(⟨0, 0, 1⟩ : Alien)] : List Alien).getD 0 ⟨0, 0, 0⟩).type ≠ 0) ∧
    pickAlive [(⟨0, 0, 0⟩ : Alien)] 1 3 ≠ PickResult.ok 0 270369 ∧
    ([(⟨0, 0, 1⟩ : Alien)] : List Alien).length ≤ 1 :=
  ⟨pickAlive_spec.1 [⟨0, 0, 1⟩] 1 1 0 270369 (by decide),
   pickAlive_spec.2.1 [⟨0, 0, 0⟩] (by decide) 1 3 0 270369,
   pickAlive_spec.2.2.1 [⟨0, 0, 1⟩] 1584200935 1 1 4294967295 (by decide)⟩

/-- C6: with the fire flag set and the pool at capacity (128 bullets), the
fire step spawns nothing, raises no error, changes nothing else, and still
clears the flag. -/
theorem fire_at_capacity_noop (s : GameState)
    (hf : s.firePressed = true) (hn : s.bullets.length = 128) :
    fireStep s = { s with firePressed := false } := by
  simp [fireStep, hn, hf]

/-- Witness for C6 at a concrete full-pool state. -/
theorem fire_at_capacity_noop_witness :
    fireStep fullPoolFireState = { fullPoolFireState with firePressed := false } :=
  fire_at_capacity_noop fullPoolFireState (by decide) (by decide)

/-- C8 counterexample: the RNG state 1584200935 (a valid nonzero 32-bit
state) steps to the xorshift output 4294967295, and dividing by the maximum
representable 32-bit value then yields exactly 1 — outside `[0, 1)`. -/
theorem randomVal_reaches_one :
    randomVal 1584200935 = 1 ∧ (1584200935 : Nat) ≠ 0 ∧ (1584200935 : Nat) < 4294967296 := by
  refine ⟨?_, by decide, by decide⟩
  have h : xorshift32 1584200935 = 4294967295 := by decide
  rw [randomVal, h]
  norm_num

/-- C8 (amended): for every RNG state the unit-interval generator's value
lies in the closed interval `[0, 1]`, and it equals 1 exactly when the
xorshift output is the maximum 32-bit value 4294967295. -/
theorem randomVal_unit_range (x : Nat) :
    0 ≤ randomVal x ∧ randomVal x ≤ 1 ∧ (randomVal x = 1 ↔ xorshift32 x = 4294967295) := by
  have hm : xorshift32 x < 4294967296 := by
    unfold xorshift32
    exact Nat.mod_lt _ (by norm_num)
  refine ⟨?_, ?_, ?_⟩
  · exact div_nonneg (by positivity) (by norm_num)
  · rw [randomVal, div_le_one (by norm_num)]
    exact_mod_cast Nat.le_of_lt_succ hm
  · rw [randomVal, div_eq_one_iff_eq (by norm_num)]
    exact_mod_cast Iff.rfl

/-- C10 counterexample: with the player at the left bound (x = 0) and an
accumulated leftward intent of 6 (player_move = -12), the move crosses the
left bound, yet the `size_t` wraparound in the first guard sends the player
to the right bound 213 instead of clamping at 0. -/
theorem player_clamp_cex :
    ((0 : Int) + 2 * (-6) ≤ 0) ∧ playerLateral (-6) 0 = 213 := by
  refine ⟨by decide, ?_⟩
  decide

/-- C10 (amended): for any starting x within the playfield and any
accumulated movement intent of `int` magnitude, the lateral-move step keeps
`0 ≤ x ≤ 213` (the lower bound holds by the `Nat` representation).  The
landing behavior is also pinned down: a move crossing the right bound
(`x + 11 + move ≥ 224`) lands exactly on 213; a move crossing the left
bound (`x + move ≤ 0`) lands exactly on 0 as long as `x + 11 + move` stays
non-negative; and a leftward move past `-(x + 11)` falls into the first
guard through the unsigned wraparound and lands on 213 instead. -/
theorem playerLateral_in_bounds (md : Int) (x : Nat)
    (hx : x ≤ 213) (hmd1 : -1073741824 ≤ md) (hmd2 : md ≤ 1073741824) :
    playerLateral md x ≤ 213 ∧
    (2 * md ≠ 0 → (x : Int) + 11 + 2 * md ≥ 224 → playerLateral md x = 213) ∧
    (2 * md ≠ 0 → (x : Int) + 2 * md ≤ 0 → (x : Int) + 11 + 2 * md ≥ 0 →
      playerLateral md x = 0) ∧
    (2 * md ≠ 0 → (x : Int) + 11 + 2 * md < 0 → playerLateral md x = 213) := by
  refine ⟨?_, ?_, ?_, ?_⟩
  · simp only [playerLateral]
    split
    · exact hx
    · split
      · exact Nat.le_refl _
      · split
        · exact Nat.zero_le _
        · rename_i hm hw hz
          simp only [w64, ge_iff_le, not_le] at hw ⊢
          omega
  · intro hm hcross
    simp only [playerLateral]
    split_ifs with h1 h2 h3
    · exact absurd h1 hm
    · rfl
    · exfalso
      simp only [w64, ge_iff_le, not_le] at h2
      omega
    · exfalso
      simp only [w64, ge_iff_le, not_le] at h2
      omega
  · intro hm hleft hnw
    simp only [playerLateral]
    split_ifs with h1 h2
    · exact absurd h1 hm
    · exfalso
      simp only [w64, ge_iff_le] at h2
      omega
    · rfl
  · intro hm hwrap
    simp only [playerLateral]
    split_ifs with h1 h2 h3
    · exact absurd h1 hm
    · rfl
    · exfalso
      simp only [w64, ge_iff_le, not_le] at h2
      omega
    · exfalso
      simp only [w64, ge_iff_le, not_le] at h2
      omega

/-- Witness for C10's amended theorem: a right-bound crossing lands on 213,
an ordinary left-bound crossing lands on 0, the wraparound case lands on
213, and an interior move respects the bound. -/
theorem playerLateral_in_bounds_witness :
    playerLateral 3 210 = 213 ∧ playerLateral (-1) 1 = 0 ∧
    playerLateral (-6) 0 = 213 ∧ playerLateral 3 100 ≤ 213 :=
  ⟨(playerLateral_in_bounds 3 210 (by decide) (by decide) (by decide)).2.1
      (by decide) (by decide),
   (playerLateral_in_bounds (-1) 1 (by decide) (by decide) (by decide)).2.2.1
      (by decide) (by decide) (by decide),
   (playerLateral_in_bounds (-6) 0 (by decide) (by decide) (by decide)).2.2.2
      (by decide) (by decide),
   (playerLateral_in_bounds 3 100 (by decide) (by decide) (by decide)).1⟩

/-- Consecutively indexed writes starting at `k`, one per value. -/
def consecFrom {α : Type} : Nat → List α → List (Nat × α)
  | _, [] => []
  | k, v :: vs => (k, v) :: consecFrom (k + 1) vs

/-- Writes at indices `k+1, k+2, ...` leave the head of a list alone. -/
theorem writeAll_consecFrom_shift {α : Type} (vs : List α) :
    ∀ (k : Nat) (a : α) (l : List α),
    writeAll (consecFrom (k + 1) vs) (a :: l) = a :: writeAll (consecFrom k vs) l := by
  induction vs with
  | nil => intro k a l; rfl
  | cons v vs ih =>
    intro k a l
    show writeAll (consecFrom (k + 2) vs) (a :: l.set k v) = _
    rw [ih (k + 1) a (l.set k v)]
    rfl

/-- Writing values at indices `0, 1, ...` into a list of matching length
replaces it entirely. -/
theorem writeAll_consecFrom_zero {α : Type} : ∀ (vs l : List α), l.length = vs.length →
    writeAll (consecFrom 0 vs) l = vs := by
  intro vs
  induction vs with
  | nil =>
    intro l h
    cases l with
    | nil => rfl
    | cons a l2 => simp at h
  | cons v vs ih =>
    intro l h
    cases l with
    | nil => simp at h
    | cons a l2 =>
      show writeAll (consecFrom 1 vs) (v :: l2) = v :: vs
      rw [writeAll_consecFrom_shift vs 0 v l2]
      rw [ih l2 (by simpa using h)]

/-- The alien list produced by the wave reset. -/
def resetAliens55 : List Alien := writeAll resetWrites (List.replicate 55 ⟨0, 0, 0⟩)

/-- The wave-reset loop writes slots 0 through 54 consecutively (the index
`xi*5 + yi` increases by one on each iteration of the nested loop). -/
theorem resetWrites_consec : resetWrites = consecFrom 0 resetAliens55 := by decide

/-- The wave-reset alien rebuild overwrites every one of the 55 slots, so it
produces `resetAliens55` whatever aliens were stored before. -/
theorem resetAliensFold_of_length55 (l : List Alien) (h : l.length = 55) :
    resetAliensFold l = resetAliens55 := by
  show writeAll resetWrites l = resetAliens55
  rw [resetWrites_consec]
  exact writeAll_consecFrom_zero _ l (by rw [h]; decide)

set_option maxHeartbeats 1000000 in
/-- C3: when the kill count has reached the alien total, the wave reset
restores exactly 55 aliens, all alive with kind in {1, 2, 3}; the alien
written at slot `xi*5 + yi` is exactly the alien the initial spawn placed at
slot `yi*11 + xi` (same kind-from-row assignment and the same position
formulas), so the restored swarm is a permutation of the initial spawn; and
the kill count is reset to 0. -/
theorem wave_reset_spec (s : GameState)
    (h55 : s.aliens.length = 55) (hk : s.aliens.length ≤ s.aliensKilled) :
    (boundsOrResetStep s).aliens.length = 55 ∧
    (∀ a ∈ (boundsOrResetStep s).aliens, 1 ≤ a.type ∧ a.type ≤ 3) ∧
    (∀ xi, xi < 11 → ∀ yi, yi < 5 →
      (boundsOrResetStep s).aliens.getD (xi * 5 + yi) ⟨0, 0, 0⟩ =
        initAliens.getD (yi * 11 + xi) ⟨0, 0, 0⟩) ∧
    (boundsOrResetStep s).aliens.Perm initAliens ∧
    (boundsOrResetStep s).aliensKilled = 0 := by
  have hbr : boundsOrResetStep s = resetStep s := if_neg (by omega)
  have ha : (resetStep s).aliens = resetAliens55 := by
    have hp : (resetStep s).aliens = resetAliensFold s.aliens := by
      simp only [resetStep]
    rw [hp]
    exact resetAliensFold_of_length55 s.aliens h55
  have hk0 : (resetStep s).aliensKilled = 0 := by
    simp only [resetStep]
  rw [hbr, ha, hk0]
  exact ⟨by decide, by decide, by decide, by decide, rfl⟩

/-- Witness for C3 at a concrete cleared-wave state. -/
theorem wave_reset_spec_witness :
    (boundsOrResetStep waveClearState).aliens.length = 55 ∧
    (∀ a ∈ (boundsOrResetStep waveClearState).aliens, 1 ≤ a.type ∧ a.type ≤ 3) ∧
    (∀ xi, xi < 11 → ∀ yi, yi < 5 →
      (boundsOrResetStep waveClearState).aliens.getD (xi * 5 + yi) ⟨0, 0, 0⟩ =
        initAliens.getD (yi * 11 + xi) ⟨0, 0, 0⟩) ∧
    (boundsOrResetStep waveClearState).aliens.Perm initAliens ∧
    (boundsOrResetStep waveClearState).aliensKilled = 0 :=
  wave_reset_spec waveClearState (by decide) (by decide)

/-- C1 failing evaluation: at a formation-step tick with the pool already
holding 128 bullets (and the spawn gate `kills < total_aliens` open), the
alien-bullet spawn appends unconditionally and leaves 129 live bullets —
in the original this writes `bullets[128]`, out of the 128-slot array. -/
theorem alien_spawn_exceeds_capacity :
    fullPoolState.bullets.length = 128 ∧
    fullPoolState.aliensKilled < fullPoolState.aliens.length ∧
    fullPoolState.alienUpdateTimer ≥ fullPoolState.alienUpdateFrequency ∧
    (formationStep 1 fullPoolState).bullets.length = 129 := by decide

/-- C7: once the player's lives are 0, every subsequent loop iteration skips
the simulation: whatever inputs arrive each tick and however many ticks run,
the aliens, the bullets (hence the live-bullet count), the score, and the
player record are exactly as they were when the lives ran out. -/
theorem game_over_freezes (fuel : Nat) (inps : List (Int × Bool)) (s : GameState)
    (h : s.player.lives = 0) :
    (runFrames fuel inps s).aliens = s.aliens ∧
    (runFrames fuel inps s).bullets = s.bullets ∧
    (runFrames fuel inps s).bullets.length = s.bullets.length ∧
    (runFrames fuel inps s).score = s.score ∧
    (runFrames fuel inps s).player = s.player := by
  induction inps generalizing s with
  | nil => exact ⟨rfl, rfl, rfl, rfl, rfl⟩
  | cons inp rest ih =>
    have hfr : frame fuel inp.1 inp.2 s = applyInputs inp.1 inp.2 s := by
      rw [frame, if_pos h]
    have hrun : runFrames fuel (inp :: rest) s =
        runFrames fuel rest (applyInputs inp.1 inp.2 s) := by
      rw [runFrames, hfr]
    obtain ⟨h1, h2, h3, h4, h5⟩ := ih (applyInputs inp.1 inp.2 s) h
    rw [hrun]
    exact ⟨h1, h2, h3, h4, h5⟩

/-- Witness for C7: a dead-player state run for three ticks of varied input. -/
theorem game_over_freezes_witness :
    (runFrames 1 [(1, true), (-1, false), (0, true)] gameOverState).aliens = gameOverState.aliens ∧
    (runFrames 1 [(1, true), (-1, false), (0, true)] gameOverState).bullets = gameOverState.bullets ∧
    (runFrames 1 [(1, true), (-1, false), (0, true)] gameOverState).bullets.length =
      gameOverState.bullets.length ∧
    (runFrames 1 [(1, true), (-1, false), (0, true)] gameOverState).score = gameOverState.score ∧
    (runFrames 1 [(1, true), (-1, false), (0, true)] gameOverState).player = gameOverState.player :=
  game_over_freezes 1 [(1, true), (-1, false), (0, true)] gameOverState (by decide)

/-- One scan step over a dead or non-overlapping alien advances the index
and changes nothing. -/
theorem alienScan_step_skip (f i j : Nat) (s : GameState)
    (hj : j < s.aliens.length)
    (hsk : (s.aliens.getD j ⟨0, 0, 0⟩).type = 0 ∨ hitCond s i j = false) :
    alienScan (f + 1) i j s = alienScan f i (j + 1) s := by
  rcases hsk with h | h
  · simp only [alienScan, hj, if_true, h, if_pos rfl]
  · by_cases ht : (s.aliens.getD j ⟨0, 0, 0⟩).type = 0
    · simp only [alienScan, hj, if_true, ht, if_pos rfl]
    · simp only [alienScan, hj, if_true, ht, if_false, h, Bool.false_eq_true]

/-- Scanning past `n` consecutive dead-or-missed aliens only moves the
index. -/
theorem alienScan_skip (i : Nat) (s : GameState) :
    ∀ (n j f : Nat),
      (∀ k, j ≤ k → k < j + n →
        (s.aliens.getD k ⟨0, 0, 0⟩).type = 0 ∨ hitCond s i k = false) →
      j + n ≤ s.aliens.length →
      alienScan (f + n) i j s = alienScan f i (j + n) s := by
  intro n
  induction n with
  | zero => intro j f _ _; rfl
  | succ m ih =>
    intro j f hsk hle
    have h1 : alienScan (f + m + 1) i j s = alienScan (f + m) i (j + 1) s :=
      alienScan_step_skip (f + m) i j s (by omega) (hsk j (Nat.le_refl j) (by omega))
    have h2 := ih (j + 1) f (fun k hk1 hk2 => hsk k (by omega) (by omega)) (by omega)
    have e1 : f + (m + 1) = f + m + 1 := by omega
    have e2 : j + 1 + m = j + (m + 1) := by omega
    rw [e1, h1, h2, e2]

/-- The scan step at the first overlapping alive alien performs the whole
hit: score award, alien death and recentring, bullet removal, kill count,
speed flag — and breaks. -/
theorem alienScan_hit_step (f i j : Nat) (s : GameState)
    (hj : j < s.aliens.length)
    (ht : ¬ (s.aliens.getD j ⟨0, 0, 0⟩).type = 0)
    (hhit : hitCond s i j = true) :
    alienScan (f + 1) i j s = { s with
      score := w64 ((s.score : Int) +
        10 * (4 - ((s.aliens.getD j ⟨0, 0, 0⟩).type : Int))),
      aliens := s.aliens.set j
        { s.aliens.getD j ⟨0, 0, 0⟩ with
          type := 0,
          x := w64 (((s.aliens.getD j ⟨0, 0, 0⟩).x : Int) -
            ((13 - alienFrameW s (s.aliens.getD j ⟨0, 0, 0⟩).type) / 2 : Nat)) },
      bullets := removeBulletAt s.bullets i,
      aliensKilled := s.aliensKilled + 1,
      shouldChangeSpeed :=
        if (s.aliensKilled + 1) % 15 = 0 then true else s.shouldChangeSpeed } := by
  simp only [alienScan, hj, if_true, ht, if_false, hhit]

/-- C4: a player-bullet-vs-alien hit, resolved against the first overlapping
alive alien `j0` of the scan: the score rises by exactly `10 * (4 - kind)`
for the kind at the time of the hit, the alien transitions to Dead with its
x shifted left by half the width difference between the death sprite and its
current animation frame, the bullet is removed (the pool shrinks by one),
the global kill count increments by one, the difficulty-ramp flag ends up
raised iff the new kill count is a multiple of 15, and no alien other than
`j0` is touched (the scan breaks after the first hit). -/
theorem player_bullet_hit_spec (s : GameState) (i j0 fuel : Nat)
    (hj : j0 < s.aliens.length)
    (hfuel : s.aliens.length ≤ fuel)
    (ht : (s.aliens.getD j0 ⟨0, 0, 0⟩).type = 1 ∨ (s.aliens.getD j0 ⟨0, 0, 0⟩).type = 2 ∨
          (s.aliens.getD j0 ⟨0, 0, 0⟩).type = 3)
    (hhit : hitCond s i j0 = true)
    (hfirst : ∀ k, k < j0 →
      (s.aliens.getD k ⟨0, 0, 0⟩).type = 0 ∨ hitCond s i k = false)
    (hscore : s.score + 40 < 18446744073709551616)
    (hx : (13 - alienFrameW s (s.aliens.getD j0 ⟨0, 0, 0⟩).type) / 2 ≤
      (s.aliens.getD j0 ⟨0, 0, 0⟩).x)
    (hxlt : (s.aliens.getD j0 ⟨0, 0, 0⟩).x < 18446744073709551616)
    (hflag : s.shouldChangeSpeed = false) :
    (alienScan fuel i 0 s).score =
      s.score + 10 * (4 - (s.aliens.getD j0 ⟨0, 0, 0⟩).type) ∧
    (alienScan fuel i 0 s).aliens = s.aliens.set j0
      { s.aliens.getD j0 ⟨0, 0, 0⟩ with
        type := 0,
        x := (s.aliens.getD j0 ⟨0, 0, 0⟩).x -
          (13 - alienFrameW s (s.aliens.getD j0 ⟨0, 0, 0⟩).type) / 2 } ∧
    (alienScan fuel i 0 s).bullets = removeBulletAt s.bullets i ∧
    ((s.bullets.length ≠ 0) →
      (alienScan fuel i 0 s).bullets.length = s.bullets.length - 1) ∧
    (alienScan fuel i 0 s).aliensKilled = s.aliensKilled + 1 ∧
    ((alienScan fuel i 0 s).shouldChangeSpeed = true ↔ (s.aliensKilled + 1) % 15 = 0) := by
  obtain ⟨f2, hf2⟩ : ∃ f2, fuel = f2 + 1 + j0 := ⟨fuel - 1 - j0, by omega⟩
  subst hf2
  have hskip := alienScan_skip i s j0 0 (f2 + 1)
    (fun k hk0 hkj => hfirst k (by omega)) (by omega)
  have hstep := alienScan_hit_step f2 i j0 s hj (by omega) hhit
  have hzero : (0 : Nat) + j0 = j0 := by omega
  rw [hzero] at hskip
  rw [hskip, hstep]
  have hw1 : w64 ((s.score : Int) +
      10 * (4 - ((s.aliens.getD j0 ⟨0, 0, 0⟩).type : Int))) =
      s.score + 10 * (4 - (s.aliens.getD j0 ⟨0, 0, 0⟩).type) := by
    rcases ht with h | h | h <;> rw [h] <;> simp only [w64] <;> omega
  have hw2 : w64 (((s.aliens.getD j0 ⟨0, 0, 0⟩).x : Int) -
      ((13 - alienFrameW s (s.aliens.getD j0 ⟨0, 0, 0⟩).type) / 2 : Nat)) =
      (s.aliens.getD j0 ⟨0, 0, 0⟩).x -
        (13 - alienFrameW s (s.aliens.getD j0 ⟨0, 0, 0⟩).type) / 2 := by
    simp only [w64]
    omega
  refine ⟨hw1, by rw [hw2], rfl, ?_, rfl, ?_⟩
  · intro hne
    simp only [removeBulletAt, List.length_take, List.length_set]
    omega
  · rw [hflag]
    by_cases hmod : (s.aliensKilled + 1) % 15 = 0
    · simp [hmod]
    · simp [hmod]

/-- Witness for C4: a kind-3 alien hit by the single player bullet — score
rises by 10, the alien dies in place, the pool empties, the kill count
becomes 1, and the ramp flag stays down (1 is not a multiple of 15). -/
theorem player_bullet_hit_spec_witness :
    (alienScan 1 0 0 singleHitState).score =
      singleHitState.score + 10 * (4 - (singleHitState.aliens.getD 0 ⟨0, 0, 0⟩).type) ∧
    (alienScan 1 0 0 singleHitState).aliens = singleHitState.aliens.set 0
      { singleHitState.aliens.getD 0 ⟨0, 0, 0⟩ with
        type := 0,
        x := (singleHitState.aliens.getD 0 ⟨0, 0, 0⟩).x -
          (13 - alienFrameW singleHitState (singleHitState.aliens.getD 0 ⟨0, 0, 0⟩).type) / 2 } ∧
    (alienScan 1 0 0 singleHitState).bullets = removeBulletAt singleHitState.bullets 0 ∧
    ((singleHitState.bullets.length ≠ 0) →
      (alienScan 1 0 0 singleHitState).bullets.length = singleHitState.bullets.length - 1) ∧
    (alienScan 1 0 0 singleHitState).aliensKilled = singleHitState.aliensKilled + 1 ∧
    ((alienScan 1 0 0 singleHitState).shouldChangeSpeed = true ↔
      (singleHitState.aliensKilled + 1) % 15 = 0) :=
  player_bullet_hit_spec singleHitState 0 0 1 (by decide) (by decide) (by decide) (by decide)
    (fun k hk => absurd hk (Nat.not_lt_zero k)) (by decide) (by decide) (by decide) (by decide)

/-- Overwrite only the `alien_update_frequency` cell. -/
def setFreq (n : Nat) (s : GameState) : GameState :=
  { s with alienUpdateFrequency := n }

theorem setFreq_aliens (n : Nat) (s : GameState) : (setFreq n s).aliens = s.aliens := rfl

theorem setFreq_bullets (n : Nat) (s : GameState) : (setFreq n s).bullets = s.bullets := rfl

theorem setFreq_player (n : Nat) (s : GameState) : (setFreq n s).player = s.player := rfl

theorem setFreq_score (n : Nat) (s : GameState) : (setFreq n s).score = s.score := rfl

theorem setFreq_aliensKilled (n : Nat) (s : GameState) :
    (setFreq n s).aliensKilled = s.aliensKilled := rfl

theorem setFreq_shouldChangeSpeed (n : Nat) (s : GameState) :
    (setFreq n s).shouldChangeSpeed = s.shouldChangeSpeed := rfl

theorem setFreq_freq (n : Nat) (s : GameState) : (setFreq n s).alienUpdateFrequency = n := rfl

theorem hitCond_setFreq (n : Nat) (s : GameState) (i k : Nat) :
    hitCond (setFreq n s) i k = hitCond s i k := rfl

theorem alienFrameW_setFreq (n : Nat) (s : GameState) (t : Nat) :
    alienFrameW (setFreq n s) t = alienFrameW s t := rfl

/-- The alien scan neither reads nor writes the formation frequency. -/
theorem alienScan_setFreq (fuel : Nat) : ∀ (i j n : Nat) (s : GameState),
    alienScan fuel i j (setFreq n s) = setFreq n (alienScan fuel i j s) := by
  induction fuel with
  | zero => intros; rfl
  | succ f ih =>
    intro i j n s
    obtain ⟨al, bl, pl, sc, ak, scs, t1, p1, p2, fr, md1, dc, at1, ad, bat, rg, md2, fp⟩ := s
    have ih2 := fun (j2 : Nat) =>
      ih i j2 n ⟨al, bl, pl, sc, ak, scs, t1, p1, p2, fr, md1, dc, at1, ad, bat, rg, md2, fp⟩
    simp only [setFreq] at ih2 ⊢
    simp only [alienScan, hitCond, alienFrameW, sprite_overlap_check]
    split_ifs <;> first | rfl | exact ih2 (j + 1)

theorem setFreq_alienUpdateTimer (n : Nat) (s : GameState) :
    (setFreq n s).alienUpdateTimer = s.alienUpdateTimer := rfl

theorem setFreq_alienSwarmPosition (n : Nat) (s : GameState) :
    (setFreq n s).alienSwarmPosition = s.alienSwarmPosition := rfl

theorem setFreq_alienSwarmMaxPosition (n : Nat) (s : GameState) :
    (setFreq n s).alienSwarmMaxPosition = s.alienSwarmMaxPosition := rfl

theorem setFreq_alienMoveDir (n : Nat) (s : GameState) :
    (setFreq n s).alienMoveDir = s.alienMoveDir := rfl

theorem setFreq_alienDeathCounter (n : Nat) (s : GameState) :
    (setFreq n s).alienDeathCounter = s.alienDeathCounter := rfl

theorem setFreq_animTime (n : Nat) (s : GameState) : (setFreq n s).animTime = s.animTime := rfl

theorem setFreq_animFrameDuration (n : Nat) (s : GameState) :
    (setFreq n s).animFrameDuration = s.animFrameDuration := rfl

theorem setFreq_bulletAnimTime (n : Nat) (s : GameState) :
    (setFreq n s).bulletAnimTime = s.bulletAnimTime := rfl

theorem setFreq_rng (n : Nat) (s : GameState) : (setFreq n s).rng = s.rng := rfl

theorem setFreq_moveDir (n : Nat) (s : GameState) : (setFreq n s).moveDir = s.moveDir := rfl

theorem setFreq_firePressed (n : Nat) (s : GameState) :
    (setFreq n s).firePressed = s.firePressed := rfl

theorem setFreq_mk_bullets (n : Nat) (s : GameState) (X : List Bullet) :
    GameState.mk s.aliens X s.player s.score s.aliensKilled s.shouldChangeSpeed
      s.alienUpdateTimer s.alienSwarmPosition s.alienSwarmMaxPosition n
      s.alienMoveDir s.alienDeathCounter s.animTime s.animFrameDuration
      s.bulletAnimTime s.rng s.moveDir s.firePressed =
    setFreq n { s with bullets := X } := rfl

theorem setFreq_mk_player_bullets (n : Nat) (s : GameState) (P : Player) (X : List Bullet) :
    GameState.mk s.aliens X P s.score s.aliensKilled s.shouldChangeSpeed
      s.alienUpdateTimer s.alienSwarmPosition s.alienSwarmMaxPosition n
      s.alienMoveDir s.alienDeathCounter s.animTime s.animFrameDuration
      s.bulletAnimTime s.rng s.moveDir s.firePressed =
    setFreq n { s with player := P, bullets := X } := rfl

/-- Helper form of the bullet-vs-bullet no-op, shared by structural proofs. -/
theorem bvbBlock_id (s : GameState) : bulletVsBulletBlock s = s :=
  bulletVsBulletLoop_id s.bullets.length 0 s

/-- The bullet pass neither reads nor writes the formation frequency. -/
theorem bulletLoop_setFreq (fuel : Nat) : ∀ (i n : Nat) (s : GameState),
    bulletLoop fuel i (setFreq n s) = setFreq n (bulletLoop fuel i s) := by
  induction fuel with
  | zero => intros; rfl
  | succ f ih =>
    intro i n s
    have fold1 := fun (u : GameState) (X : List Bullet) => setFreq_mk_bullets n u X
    have fold2 := fun (u : GameState) (P : Player) (X : List Bullet) =>
      setFreq_mk_player_bullets n u P X
    simp only [bulletLoop, bvbBlock_id, setFreq_aliens, setFreq_bullets, setFreq_player,
      setFreq_score, setFreq_aliensKilled, setFreq_shouldChangeSpeed, setFreq_freq,
      setFreq_alienUpdateTimer, setFreq_alienSwarmPosition, setFreq_alienSwarmMaxPosition,
      setFreq_alienMoveDir, setFreq_alienDeathCounter, setFreq_animTime,
      setFreq_animFrameDuration, setFreq_bulletAnimTime, setFreq_rng, setFreq_moveDir,
      setFreq_firePressed, fold1, fold2, alienScan_setFreq, ih]
    split_ifs <;> rfl

/-- The whole bullet pass commutes with overwriting the frequency cell. -/
theorem bulletStep_setFreq (n : Nat) (s : GameState) :
    bulletStep (setFreq n s) = setFreq n (bulletStep s) := by
  unfold bulletStep
  rw [setFreq_bullets]
  exact bulletLoop_setFreq (s.bullets.length + 1) 0 n s

/-- The bullet pass leaves the frequency countdown alone. -/
theorem bulletStep_freq (s : GameState) :
    (bulletStep s).alienUpdateFrequency = s.alienUpdateFrequency := by
  have h := bulletStep_setFreq s.alienUpdateFrequency s
  have heta : setFreq s.alienUpdateFrequency s = s := rfl
  rw [heta] at h
  rw [h]
  exact setFreq_freq _ _

/-- On a tick where the vertical-pass countdown has not elapsed, the wrap
step only decrements the countdown, so it commutes with the bullet pass. -/
theorem wrap_bullet_comm (s : GameState) (h : s.alienUpdateFrequency ≠ 0) :
    bulletStep (wrapStep s) = wrapStep (bulletStep s) := by
  have h1 : wrapStep s = setFreq (s.alienUpdateFrequency - 1) s := by
    rw [wrapStep, if_neg h]
    rfl
  have h3 : wrapStep (bulletStep s) =
      setFreq ((bulletStep s).alienUpdateFrequency - 1) (bulletStep s) := by
    rw [wrapStep, if_neg (by rw [bulletStep_freq]; exact h)]
    rfl
  rw [h1, bulletStep_setFreq, h3, bulletStep_freq]

/-- C5 counterexample: at `orderProbeState` the claimed order (bullet pass
before the vertical wrap pass) awards the bullet a 30-point kill on the
alien at (50, 257), while the actual tick runs the wrap pass first, which
wraps that alien to dead before the bullet is tested — no score.  The two
orders are therefore observably different. -/
theorem tick_order_cex :
    (tick 1 orderProbeState).score = 0 ∧ (tickSpecOrder 1 orderProbeState).score = 30 := by
  constructor
  · decide
  · decide

/-- C5 (amended): the per-tick order is fixed, but the vertical wrap/descend
pass runs FIRST, before bullet advancement and collision resolution; the
rest of the order is as claimed (ramp, death countdowns, timer-gated
formation step with possible spawn, animation clocks, timer increment,
player lateral motion, swarm bounds or wave reset, fire spawn and flag
clear).  Moreover the two orders agree on every tick on which the wrap
pass is dormant (its countdown has not reached zero), so the divergence is
exactly the wrap-first placement. -/
theorem tick_order_spec :
    (∀ (fuel : Nat) (s : GameState),
      tick fuel s = fireStep (boundsOrResetStep (playerStep (timerStep (animStep
        (formationStep fuel (countdownStep (rampStep (bulletStep (wrapStep s)))))))))) ∧
    (∀ (fuel : Nat) (s : GameState), s.alienUpdateFrequency ≠ 0 →
      tick fuel s = tickSpecOrder fuel s) := by
  constructor
  · intro fuel s
    rfl
  · intro fuel s h
    rw [tick, tickSpecOrder, wrap_bullet_comm s h]

/-- Witness for C5's amended theorem at the freshly initialised state, whose
countdown is 120. -/
theorem tick_order_spec_witness : tick 1 initState = tickSpecOrder 1 initState :=
  tick_order_spec.2 1 initState (by decide)
